import Mathlib

/-!
Shallow embedding of the AI Tutor platform backend: the session/message
lifecycle (routes/session.ts against models/Session.ts), the avatar-video
provider fallback cascade and its polling loops (services/avatarService.ts),
the demo video service (demoVideoService.ts), the AI text-generation
fallback (services/aiService.ts), the voice service temp-file handling
(services/voiceService.ts), and the in-memory video stream registry
(videoStreamService.ts).

Network calls, database reads and clock reads are modelled as explicit
parameters (oracles); machine state (the session store, the filesystem,
the in-memory stream maps) is passed explicitly.  A TypeScript function
that can throw is modelled with `Except`.
-/

namespace AITutor

/-! ## Data model (models/Session.ts) -/

inductive Sender
| user
| ai
deriving DecidableEq, Repr

structure Message where
  sender : Sender
  content : String
  timestamp : Nat
  attachments : List String := []
deriving DecidableEq, Repr

inductive SessionStatus
| active
| paused
| ended
deriving DecidableEq, Repr

structure UserSnapshot where
  name : String
  language : String
  aiTutorName : String
deriving DecidableEq, Repr

structure Session where
  id : Nat
  userId : Nat
  user : UserSnapshot
  messages : List Message
  status : SessionStatus
  startTime : Nat
  endTime : Option Nat := none
  totalDuration : Option Nat := none
  subject : String
deriving DecidableEq, Repr

/-- `Math.round((endTime - startTime) / (1000 * 60))` on a nonnegative
millisecond difference `d`: `round (d / 60000) = floor ((2 d + 60000) / 120000)`. -/
def minutesRound (d : Nat) : Nat := (2 * d + 60000) / 120000

/-- The `sessionSchema.pre('save')` hook (Session.ts lines 89-96): when the
status path was modified, the status is `ended` and an end time is set, the
total duration is computed as the rounded number of minutes between start
and end time. -/
def preSave (statusModified : Bool) (s : Session) : Session :=
  match statusModified, s.status, s.endTime with
  | true, SessionStatus.ended, some e =>
      { s with totalDuration := some (minutesRound (e - s.startTime)) }
  | _, _, _ => s

/-- Persisting an already-stored document: replace the entry with the same
`_id`.  (MongoDB `_id` is unique; `saveSession` rewrites every entry with
the matching id, which coincides with the real behaviour on stores whose
ids are distinct.) -/
def saveSession (store : List Session) (s : Session) : List Session :=
  store.map (fun t => if t.id = s.id then s else t)

/-! ## Demo video service (demoVideoService.ts, variant with a `default`
entry; the duration formula is identical in both variants of the file) -/

structure DemoVideo where
  videoUrl : String
  audioUrl : String
  duration : Nat
  isLive : Bool
deriving DecidableEq, Repr

def bellAudio : String := "https://www.soundjay.com/misc/sounds/bell-ringing-05.wav"

def demoVideos : List (String × DemoVideo) :=
  [ ("john",
     { videoUrl := "https://commondatastorage.googleapis.com/gtv-videos-bucket/sample/BigBuckBunny.mp4"
       audioUrl := bellAudio, duration := 10, isLive := true })
  , ("sarah",
     { videoUrl := "https://commondatastorage.googleapis.com/gtv-videos-bucket/sample/ElephantsDream.mp4"
       audioUrl := bellAudio, duration := 15, isLive := true })
  , ("sonia",
     { videoUrl := "https://commondatastorage.googleapis.com/gtv-videos-bucket/sample/ForBiggerBlazes.mp4"
       audioUrl := bellAudio, duration := 12, isLive := true })
  , ("mike",
     { videoUrl := "https://commondatastorage.googleapis.com/gtv-videos-bucket/sample/ForBiggerEscapes.mp4"
       audioUrl := bellAudio, duration := 20, isLive := true })
  , ("emma",
     { videoUrl := "https://commondatastorage.googleapis.com/gtv-videos-bucket/sample/ForBiggerFun.mp4"
       audioUrl := bellAudio, duration := 25, isLive := true })
  , ("default",
     { videoUrl := "https://commondatastorage.googleapis.com/gtv-videos-bucket/sample/BigBuckBunny.mp4"
       audioUrl := bellAudio, duration := 10, isLive := true }) ]

/-- `tutorName.toLowerCase()`. -/
def lowerStr (s : String) : String := String.mk (s.toList.map Char.toLower)

/-- `getDemoVideo`: look up the lower-cased tutor name, falling back to the
`default` entry. -/
def getDemoVideo (tutorName : String) : DemoVideo :=
  let normalizedName := lowerStr tutorName
  match demoVideos.lookup normalizedName with
  | some v => v
  | none => (demoVideos.lookup "default").getD
      { videoUrl := "", audioUrl := "", duration := 0, isLive := false }

/-- `generateTalkingResponse`: base demo video for the tutor with
`duration = Math.max(3, Math.min(30, Math.ceil(message.length / 10)))`
(`Math.ceil (n / 10) = (n + 9) / 10` on naturals). -/
def generateTalkingResponse (tutorName message : String) : DemoVideo :=
  let baseVideo := getDemoVideo tutorName
  let duration := max 3 (min 30 ((message.length + 9) / 10))
  { baseVideo with duration := duration, isLive := true }

/-- The spec formula `clamp(ceil(len/10), 3, 30)`. -/
def durationSpecFormula (len : Nat) : Nat := min 30 (max 3 ((len + 9) / 10))

/-! ### C6 -/

/-- C6: for every tutor name and every message, the duration of
`demoVideoService.generateTalkingResponse` equals
`clamp(ceil(length(message)/10), 3, 30)`; a 2-character message yields 3,
a 100-character message yields 10, a 300-character message yields 30. -/
theorem generateTalkingResponse_duration_clamped :
    (∀ tutorName message : String,
      (generateTalkingResponse tutorName message).duration =
        durationSpecFormula message.length)
    ∧ (∀ tutorName : String,
        (generateTalkingResponse tutorName "hi").duration = 3)
    ∧ (∀ tutorName : String,
        (generateTalkingResponse tutorName
          (String.mk (List.replicate 100 'a'))).duration = 10)
    ∧ (∀ tutorName : String,
        (generateTalkingResponse tutorName
          (String.mk (List.replicate 300 'a'))).duration = 30) := by
  have hmain : ∀ tutorName message : String,
      (generateTalkingResponse tutorName message).duration =
        durationSpecFormula message.length := by
    intro tutorName message
    simp only [generateTalkingResponse, durationSpecFormula]
    omega
  refine ⟨hmain, ?_, ?_, ?_⟩
  · intro tutorName
    rw [hmain]
    decide
  · intro tutorName
    have h : (String.mk (List.replicate 100 'a')).length = 100 := by
      show (List.replicate 100 'a').length = 100
      rw [List.length_replicate]
    rw [hmain, h]
    decide
  · intro tutorName
    have h : (String.mk (List.replicate 300 'a')).length = 300 := by
      show (List.replicate 300 'a').length = 300
      rw [List.length_replicate]
    rw [hmain, h]
    decide

/-! ## Session routes (routes/session.ts) -/

/-- The uniform error shape `{success:false, error}` together with the HTTP
status code it is sent with. -/
structure ApiError where
  status : Nat
  success : Bool
  error : String
deriving DecidableEq, Repr

/-- The filter of `Session.findOne({ userId, status: 'active' })`. -/
def activeSessionFor (uid : Nat) (s : Session) : Bool :=
  s.userId == uid && s.status == SessionStatus.active

/-- `POST /api/session/start`: reject with HTTP 400 when an active session
exists for the user; otherwise create the session (subject defaulting to
`"General Tutoring"` for a missing or empty subject), save it, append the
AI greeting and save again.  The AI call is the `aiGreeting` oracle. -/
def startSession (store : List Session) (uid : Nat) (u : UserSnapshot)
    (subject : Option String) (freshId : Nat) (now : Nat) (aiGreeting : String) :
    Except ApiError Session × List Session :=
  match store.find? (activeSessionFor uid) with
  | some _ =>
      (Except.error ⟨400, false,
        "You already have an active session. Please end the current session first."⟩,
       store)
  | none =>
      let s0 : Session :=
        { id := freshId, userId := uid, user := u, messages := [],
          status := SessionStatus.active, startTime := now,
          subject := match subject with
                     | some subj => if subj == "" then "General Tutoring" else subj
                     | none => "General Tutoring" }
      let store1 := store ++ [preSave true s0]
      let s1 := { s0 with messages :=
        s0.messages ++ [{ sender := Sender.ai, content := aiGreeting, timestamp := now }] }
      let store2 := saveSession store1 (preSave false s1)
      (Except.ok s1, store2)

/-- The success body of `POST /api/session/message`: the AI response plus
`session.messages.slice(-2)`. -/
structure MessagePayload where
  response : String
  sessionId : Nat
  messages : List Message
deriving DecidableEq, Repr

/-- `messages.slice(-2)`. -/
def takeLastTwo (l : List Message) : List Message := l.drop (l.length - 2)

/-- `POST /api/session/message`: validate the message, find the caller's
active session with the given id, append the user message, obtain the AI
reply (`aiResponse` oracle), append it and save once. -/
def postMessage (store : List Session) (uid : Nat) (sessionId : Nat)
    (message : String) (attachments : Option (List String)) (now : Nat)
    (aiResponse : String) : Except ApiError MessagePayload × List Session :=
  if message == "" then
    (Except.error ⟨400, false, "Message is required"⟩, store)
  else
    match store.find? (fun s =>
        s.id == sessionId && s.userId == uid && s.status == SessionStatus.active) with
    | none => (Except.error ⟨404, false, "Active session not found"⟩, store)
    | some s =>
        let userMessage : Message :=
          { sender := Sender.user, content := message, timestamp := now,
            attachments := attachments.getD [] }
        let aiMessage : Message :=
          { sender := Sender.ai, content := aiResponse, timestamp := now }
        let s2 := { s with messages := s.messages ++ [userMessage, aiMessage] }
        let store2 := saveSession store (preSave false s2)
        (Except.ok { response := aiResponse, sessionId := s.id,
                     messages := takeLastTwo s2.messages }, store2)

/-- The success body of `PUT /api/session/end`. -/
structure EndPayload where
  sessionId : Nat
  totalDuration : Option Nat
  messageCount : Nat
deriving DecidableEq, Repr

/-- `PUT /api/session/end`: find the caller's active session; if none,
HTTP 404; otherwise set status `ended` and `endTime := now` and save (the
pre-save hook computes the duration). -/
def endSession (store : List Session) (uid : Nat) (now : Nat) :
    Except ApiError EndPayload × List Session :=
  match store.find? (activeSessionFor uid) with
  | none => (Except.error ⟨404, false, "No active session found"⟩, store)
  | some s =>
      let s2 := preSave true { s with status := SessionStatus.ended, endTime := some now }
      let store2 := saveSession store s2
      (Except.ok { sessionId := s2.id, totalDuration := s2.totalDuration,
                   messageCount := s2.messages.length }, store2)

lemma preSave_false (s : Session) : preSave false s = s := rfl

lemma takeLastTwo_append (l : List Message) (a b : Message) :
    takeLastTwo (l ++ [a, b]) = [a, b] := by
  simp only [takeLastTwo, List.length_append]
  have h : l.length + (2 : Nat) - 2 = l.length := by omega
  rw [show ([a, b] : List Message).length = 2 from rfl, h]
  exact List.drop_left l [a, b]

/-! ### C1 -/

/-- C1: when the user already has a session with status `active`,
`startSession` fails with HTTP 400, `success:false`, and the stored list of
sessions is unchanged — no second session is created. -/
theorem startSession_rejects_when_active_exists
    (store : List Session) (uid : Nat) (u : UserSnapshot) (subject : Option String)
    (freshId now : Nat) (aiGreeting : String) (s : Session)
    (hactive : store.find? (activeSessionFor uid) = some s) :
    startSession store uid u subject freshId now aiGreeting =
      (Except.error ⟨400, false,
        "You already have an active session. Please end the current session first."⟩,
       store) := by
  simp [startSession, hactive]

def demoUser : UserSnapshot :=
  { name := "Ana", language := "English", aiTutorName := "Sam" }

def sessActive : Session :=
  { id := 10, userId := 1, user := demoUser, messages := [],
    status := SessionStatus.active, startTime := 0, subject := "General Tutoring" }

/-- C1 witness: a concrete store with one active session for user 1. -/
theorem startSession_rejects_when_active_exists_witness :
    startSession [sessActive] 1 demoUser none 11 5 "hi" =
      (Except.error ⟨400, false,
        "You already have an active session. Please end the current session first."⟩,
       [sessActive]) :=
  startSession_rejects_when_active_exists [sessActive] 1 demoUser none 11 5 "hi"
    sessActive rfl

/-! ### C2 -/

/-- C2: a successful `postMessage` appends exactly the user message followed
by the AI reply to the matched session's message list, leaving all
previously stored messages (and every other session) unchanged. -/
theorem postMessage_appends_user_then_ai
    (store : List Session) (uid sessionId : Nat) (message : String)
    (attachments : Option (List String)) (now : Nat) (aiResponse : String)
    (s : Session)
    (hfind : store.find? (fun t =>
        t.id == sessionId && t.userId == uid && t.status == SessionStatus.active)
      = some s)
    (hmsg : message ≠ "") :
    postMessage store uid sessionId message attachments now aiResponse =
      (Except.ok { response := aiResponse, sessionId := s.id,
                   messages :=
                     [{ sender := Sender.user, content := message, timestamp := now,
                        attachments := attachments.getD [] },
                      { sender := Sender.ai, content := aiResponse, timestamp := now }] },
       saveSession store { s with messages := s.messages ++
         [{ sender := Sender.user, content := message, timestamp := now,
            attachments := attachments.getD [] },
          { sender := Sender.ai, content := aiResponse, timestamp := now }] }) := by
  simp [postMessage, hfind, hmsg, preSave_false, takeLastTwo_append]

def sessWithHistory : Session :=
  { id := 10, userId := 1, user := demoUser,
    messages := [{ sender := Sender.ai, content := "Hello Ana!", timestamp := 0 }],
    status := SessionStatus.active, startTime := 0, subject := "General Tutoring" }

/-- C2 witness: posting "hello" to a concrete active session with one prior
message. -/
theorem postMessage_appends_user_then_ai_witness :
    postMessage [sessWithHistory] 1 10 "hello" none 7 "Hi Ana!" =
      (Except.ok { response := "Hi Ana!", sessionId := 10,
                   messages :=
                     [{ sender := Sender.user, content := "hello", timestamp := 7,
                        attachments := [] },
                      { sender := Sender.ai, content := "Hi Ana!", timestamp := 7 }] },
       saveSession [sessWithHistory] { sessWithHistory with messages :=
         sessWithHistory.messages ++
           [{ sender := Sender.user, content := "hello", timestamp := 7,
              attachments := [] },
            { sender := Sender.ai, content := "Hi Ana!", timestamp := 7 }] }) :=
  postMessage_appends_user_then_ai [sessWithHistory] 1 10 "hello" none 7 "Hi Ana!"
    sessWithHistory rfl (by decide)

/-! ### C3 -/

/-- The session produced by `PUT /api/session/end` on an active session
`s`: status `ended`, end time `now`, and the duration computed by the
pre-save hook. -/
def endedVersion (s : Session) (now : Nat) : Session :=
  { s with
    status := SessionStatus.ended
    endTime := some now
    totalDuration := some (minutesRound (now - s.startTime)) }

/-- C3: `endSession` with no active session for the caller fails with
HTTP 404 and mutates no session; with an active session it sets status
`ended`, `endTime := now` and `totalDuration` to the rounded number of
minutes between start and end time, leaves every already-`ended` session
untouched, and afterwards `postMessage` against that session id is
rejected (HTTP 404) without changing the store. -/
theorem endSession_idempotent_safe
    (store : List Session) (uid now : Nat)
    (hnodup : (store.map Session.id).Nodup) :
    (store.find? (activeSessionFor uid) = none →
       endSession store uid now =
         (Except.error ⟨404, false, "No active session found"⟩, store))
    ∧ (∀ s : Session, store.find? (activeSessionFor uid) = some s →
        endSession store uid now =
          (Except.ok { sessionId := s.id,
                       totalDuration := some (minutesRound (now - s.startTime)),
                       messageCount := s.messages.length },
           saveSession store (endedVersion s now))
        ∧ (∀ t ∈ store, t.status = SessionStatus.ended →
             t ∈ (endSession store uid now).2)
        ∧ (∀ (message : String) (attachments : Option (List String))
             (now2 : Nat) (aiResponse : String), message ≠ "" →
             postMessage (endSession store uid now).2 uid s.id message attachments
                 now2 aiResponse =
               (Except.error ⟨404, false, "Active session not found"⟩,
                (endSession store uid now).2))) := by
  constructor
  · intro hnone
    unfold endSession
    rw [hnone]
  · intro s hfind
    have hs_mem : s ∈ store := List.mem_of_find?_eq_some hfind
    have hs_pred := List.find?_some hfind
    have hs_active : s.status = SessionStatus.active := by
      simp only [activeSessionFor, Bool.and_eq_true, beq_iff_eq] at hs_pred
      exact hs_pred.2
    have hEq : endSession store uid now =
        (Except.ok { sessionId := s.id,
                     totalDuration := some (minutesRound (now - s.startTime)),
                     messageCount := s.messages.length },
         saveSession store (endedVersion s now)) := by
      unfold endSession
      rw [hfind]
      rfl
    have hid_eq : (endedVersion s now).id = s.id := rfl
    refine ⟨hEq, ?_, ?_⟩
    · intro t ht htend
      rw [hEq]
      have htid : ¬ t.id = s.id := by
        intro h
        have h2 : t = s := List.inj_on_of_nodup_map hnodup ht hs_mem h
        rw [h2, hs_active] at htend
        exact SessionStatus.noConfusion htend
      have himg : (if t.id = (endedVersion s now).id then endedVersion s now else t) = t := by
        rw [hid_eq, if_neg htid]
      have hmem2 : (if t.id = (endedVersion s now).id then endedVersion s now else t)
          ∈ saveSession store (endedVersion s now) := List.mem_map_of_mem _ ht
      rwa [himg] at hmem2
    · intro message attachments now2 aiResponse hmsg
      rw [hEq]
      have hnone2 : (saveSession store (endedVersion s now)).find?
          (fun t => t.id == s.id && t.userId == uid && t.status == SessionStatus.active)
          = none := by
        rw [List.find?_eq_none]
        intro x hx
        simp only [saveSession, List.mem_map] at hx
        obtain ⟨t, _ht, rfl⟩ := hx
        by_cases hid : t.id = (endedVersion s now).id
        · rw [if_pos hid]
          simp [endedVersion]
        · rw [if_neg hid]
          rw [hid_eq] at hid
          simp only [Bool.and_eq_true, beq_iff_eq]
          intro hcontr
          exact hid hcontr.1.1
      simp [postMessage, hmsg, hnone2]

def sessEnded : Session :=
  { id := 11, userId := 1, user := demoUser, messages := [],
    status := SessionStatus.ended, startTime := 0, endTime := some 0,
    totalDuration := some 0, subject := "Math" }

/-- C3 witness: ending a concrete store holding one active session (one
minute old) and one already-ended session. -/
theorem endSession_idempotent_safe_witness :
    endSession [sessWithHistory, sessEnded] 1 60000 =
      (Except.ok { sessionId := 10, totalDuration := some 1, messageCount := 1 },
       saveSession [sessWithHistory, sessEnded] (endedVersion sessWithHistory 60000)) := by
  have h := ((endSession_idempotent_safe [sessWithHistory, sessEnded] 1 60000
      (by decide)).2 sessWithHistory rfl).1
  rw [h]
  rfl

/-! ### C9 -/

/-- C9: the success response of `postMessage` contains only the last two
messages of the session — the newly appended user message and AI reply —
not the full persisted history (whenever any prior message exists the
response list differs from the persisted list). -/
theorem postMessage_response_only_last_two
    (store : List Session) (uid sessionId : Nat) (message : String)
    (attachments : Option (List String)) (now : Nat) (aiResponse : String)
    (s : Session)
    (hfind : store.find? (fun t =>
        t.id == sessionId && t.userId == uid && t.status == SessionStatus.active)
      = some s)
    (hmsg : message ≠ "") :
    ((postMessage store uid sessionId message attachments now aiResponse).1 =
      Except.ok { response := aiResponse, sessionId := s.id,
                  messages :=
                    [{ sender := Sender.user, content := message, timestamp := now,
                       attachments := attachments.getD [] },
                     { sender := Sender.ai, content := aiResponse, timestamp := now }] })
    ∧ (∀ (persisted : Session),
         (postMessage store uid sessionId message attachments now aiResponse).2.find?
             (fun t => t.id == s.id) = some persisted →
         takeLastTwo persisted.messages =
           [{ sender := Sender.user, content := message, timestamp := now,
              attachments := attachments.getD [] },
            { sender := Sender.ai, content := aiResponse, timestamp := now }])
    ∧ (s.messages ≠ [] →
         ([{ sender := Sender.user, content := message, timestamp := now,
             attachments := attachments.getD [] },
           { sender := Sender.ai, content := aiResponse, timestamp := now }]
             : List Message) ≠
           s.messages ++
             [{ sender := Sender.user, content := message, timestamp := now,
                attachments := attachments.getD [] },
              { sender := Sender.ai, content := aiResponse, timestamp := now }]) := by
  have hEq := postMessage_appends_user_then_ai store uid sessionId message attachments
    now aiResponse s hfind hmsg
  refine ⟨by rw [hEq], ?_, ?_⟩
  · intro persisted hp
    rw [hEq] at hp
    have hpred := List.find?_some hp
    have hmem := List.mem_of_find?_eq_some hp
    simp only [saveSession, List.mem_map] at hmem
    obtain ⟨t, _ht, rfl⟩ := hmem
    split
    · exact takeLastTwo_append s.messages _ _
    · rename_i hid
      simp only [if_neg hid, beq_iff_eq] at hpred
      exact absurd hpred hid
  · intro hne hcontr
    have hlen := congrArg List.length hcontr
    simp only [List.length_append, List.length_cons, List.length_nil] at hlen
    have h0 : s.messages.length = 0 := by omega
    exact hne (List.length_eq_zero.mp h0)

/-- C9 witness: the concrete response to a post against a session that
already holds one message. -/
theorem postMessage_response_only_last_two_witness :
    (postMessage [sessWithHistory] 1 10 "hello" none 7 "Hi Ana!").1 =
      Except.ok { response := "Hi Ana!", sessionId := 10,
                  messages :=
                    [{ sender := Sender.user, content := "hello", timestamp := 7,
                       attachments := [] },
                     { sender := Sender.ai, content := "Hi Ana!", timestamp := 7 }] } :=
  (postMessage_response_only_last_two [sessWithHistory] 1 10 "hello" none 7 "Hi Ana!"
    sessWithHistory rfl (by decide)).1

/-! ## Video stream service (videoStreamService.ts, variant with the
in-memory `activeStreams`/`streamConfigs` registries) -/

inductive StreamQuality
| low
| medium
| high
deriving DecidableEq, Repr

structure Resolution where
  width : Nat
  height : Nat
deriving DecidableEq, Repr

structure VideoStreamConfig where
  tutorName : String
  quality : StreamQuality
  frameRate : Nat
  resolution : Resolution
deriving DecidableEq, Repr

structure StreamResponse where
  videoUrl : String
  audioUrl : String
  duration : Nat
  isLive : Bool
deriving DecidableEq, Repr

/-- The service's two process-local `Map`s keyed by session id, modelled
as association lists (a JS `Map` holds at most one entry per key;
`Map.delete` removes that entry, modelled by filtering the key out). -/
structure VideoStreamState where
  activeStreams : List (String × StreamResponse)
  streamConfigs : List (String × VideoStreamConfig)
deriving DecidableEq, Repr

/-- `getStreamStatus(sessionId)`: `this.activeStreams.get(sessionId) || null`. -/
def getStreamStatus (st : VideoStreamState) (sessionId : String) :
    Option StreamResponse :=
  st.activeStreams.lookup sessionId

/-- `stopStream(sessionId)`: `this.activeStreams.delete(sessionId)` and
`this.streamConfigs.delete(sessionId)`. -/
def stopStream (st : VideoStreamState) (sessionId : String) : VideoStreamState :=
  { activeStreams := st.activeStreams.filter (fun p => p.1 != sessionId)
    streamConfigs := st.streamConfigs.filter (fun p => p.1 != sessionId) }

lemma lookup_filter_self {β : Type} (l : List (String × β)) (k : String) :
    (l.filter (fun p => p.1 != k)).lookup k = none := by
  induction l with
  | nil => rfl
  | cons p l ih =>
    obtain ⟨kp, v⟩ := p
    by_cases h : kp = k
    · simp [List.filter_cons, h, ih]
    · have h1 : (kp != k) = true := by simp [h]
      have h2 : (k == kp) = false := by
        simp only [beq_eq_false_iff_ne, ne_eq]
        exact fun hh => h hh.symm
      simp [List.filter_cons, h1, List.lookup, h2, ih]

lemma lookup_filter_other {β : Type} (l : List (String × β)) (k other : String)
    (h : other ≠ k) :
    (l.filter (fun p => p.1 != k)).lookup other = l.lookup other := by
  induction l with
  | nil => rfl
  | cons p l ih =>
    obtain ⟨kp, v⟩ := p
    by_cases hk : kp = k
    · subst hk
      have h2 : (other == kp) = false := by
        simp only [beq_eq_false_iff_ne, ne_eq]
        exact h
      simp [List.filter_cons, List.lookup, h2, ih]
    · have h1 : (kp != k) = true := by simp [hk]
      simp only [List.filter_cons, h1, if_true, List.lookup]
      by_cases ho : other = kp
      · simp [ho]
      · have h2 : (other == kp) = false := by
          simp only [beq_eq_false_iff_ne, ne_eq]
          exact ho
        simp [h2, ih]

/-! ### C10 -/

/-- C10: after `stopStream(sessionId)`, `getStreamStatus(sessionId)` is
`null` and the stream configuration for that id is gone; entries for every
other session id are unchanged in both maps. -/
theorem stopStream_clears_only_that_session
    (st : VideoStreamState) (sessionId : String) :
    getStreamStatus (stopStream st sessionId) sessionId = none
    ∧ (stopStream st sessionId).streamConfigs.lookup sessionId = none
    ∧ (∀ other : String, other ≠ sessionId →
        getStreamStatus (stopStream st sessionId) other = getStreamStatus st other
        ∧ (stopStream st sessionId).streamConfigs.lookup other =
            st.streamConfigs.lookup other) := by
  refine ⟨lookup_filter_self _ _, lookup_filter_self _ _, ?_⟩
  intro other h
  exact ⟨lookup_filter_other _ _ _ h, lookup_filter_other _ _ _ h⟩

def demoStream : StreamResponse :=
  { videoUrl := "v.mp4", audioUrl := "a.wav", duration := 10, isLive := true }

def demoConfig : VideoStreamConfig :=
  { tutorName := "John", quality := StreamQuality.medium, frameRate := 30,
    resolution := { width := 1280, height := 720 } }

def streamState0 : VideoStreamState :=
  { activeStreams := [("s1", demoStream), ("s2", demoStream)],
    streamConfigs := [("s1", demoConfig), ("s2", demoConfig)] }

/-- C10 witness: stopping stream "s1" in a concrete two-stream state clears
"s1" and leaves "s2" untouched. -/
theorem stopStream_clears_only_that_session_witness :
    getStreamStatus (stopStream streamState0 "s1") "s1" = none
    ∧ getStreamStatus (stopStream streamState0 "s1") "s2" =
        getStreamStatus streamState0 "s2" := by
  refine ⟨(stopStream_clears_only_that_session streamState0 "s1").1, ?_⟩
  exact ((stopStream_clears_only_that_session streamState0 "s1").2.2 "s2"
    (by decide)).1

/-! ## AI service (services/aiService.ts) -/

/-- Substring scan underlying `strIncludes`: does `needle` occur starting
at some position of the haystack? -/
def includesAux (needle : List Char) : List Char → Bool
  | [] => needle.isEmpty
  | c :: rest => needle.isPrefixOf (c :: rest) || includesAux needle rest

/-- `haystack.includes(needle)`. -/
def strIncludes (haystack needle : String) : Bool :=
  includesAux needle.toList haystack.toList

/-- `generateMockResponse`: keyword-matched canned responses keyed off the
last message (the greeting when there is no last message or it was sent by
the AI). -/
def generateMockResponse (messages : List Message)
    (userName aiTutorName : String) : String :=
  match messages.getLast? with
  | none =>
      s!"Hello {userName}! I\x27m {aiTutorName}, your AI tutor. How can I help you today?"
  | some lastMessage =>
      if lastMessage.sender == Sender.ai then
        s!"Hello {userName}! I\x27m {aiTutorName}, your AI tutor. How can I help you today?"
      else
        let userMessage := lowerStr lastMessage.content
        if strIncludes userMessage "hello" || strIncludes userMessage "hi" then
          s!"Hello {userName}! Great to see you! What would you like to learn about today?"
        else if strIncludes userMessage "math" || strIncludes userMessage "mathematics" then
          s!"Mathematics is a fascinating subject, {userName}! What specific topic are you working on? I\x27d be happy to help you understand it better."
        else if strIncludes userMessage "science" then
          s!"Science is all about understanding the world around us, {userName}! Which branch of science are you studying?"
        else if strIncludes userMessage "thank" then
          s!"You\x27re very welcome, {userName}! I\x27m here to help you succeed. Is there anything else you\x27d like to explore?"
        else if strIncludes userMessage "help" then
          s!"Of course, {userName}! I\x27m here to help you. Could you tell me more specifically what you\x27re struggling with?"
        else
          s!"That\x27s an interesting question, {userName}! I\x27d be happy to help you understand this better. Could you provide a bit more context so I can give you the most helpful response?"

/-- `generateResponse`: when the OpenAI key is absent (`isConfigured =
false`) return the mock response; otherwise make the API call — an oracle
whose `Except.error` models a thrown transport/API error and whose
`Except.ok none` models a response with missing content — falling back to
the mock response in the catch.  The function is total: it never throws to
its caller. -/
def generateResponse (isConfigured : Bool)
    (apiOutcome : Except Unit (Option String))
    (messages : List Message) (userName aiTutorName : String)
    (language : String) (subject : Option String) : String :=
  if !isConfigured then generateMockResponse messages userName aiTutorName
  else
    match apiOutcome with
    | Except.ok content =>
        content.getD "I apologize, but I am unable to respond at the moment."
    | Except.error _ => generateMockResponse messages userName aiTutorName

/-! ### C8 -/

/-- C8: `generateResponse` never throws — unconfigured or failing API calls
yield the deterministic keyword-matched canned response; in particular when
the last message is a user message containing "hello", the fixed mock
greeting is returned. -/
theorem generateResponse_never_throws_hello_greeting
    (messages : List Message) (userName aiTutorName language : String)
    (subject : Option String) (lastMessage : Message)
    (hlast : messages.getLast? = some lastMessage)
    (hsender : lastMessage.sender = Sender.user)
    (hhello : strIncludes (lowerStr lastMessage.content) "hello" = true) :
    (∀ apiOutcome : Except Unit (Option String),
       generateResponse false apiOutcome messages userName aiTutorName
           language subject =
         generateMockResponse messages userName aiTutorName)
    ∧ generateResponse true (Except.error ()) messages userName aiTutorName
          language subject =
        generateMockResponse messages userName aiTutorName
    ∧ generateMockResponse messages userName aiTutorName =
        s!"Hello {userName}! Great to see you! What would you like to learn about today?" := by
  refine ⟨fun apiOutcome => rfl, rfl, ?_⟩
  simp [generateMockResponse, hlast, hsender, hhello]

/-- C8 witness: the "hello" scenario on an unconfigured deployment with a
concrete message list. -/
theorem generateResponse_never_throws_hello_greeting_witness :
    generateResponse true (Except.error ())
        [{ sender := Sender.user, content := "hello there", timestamp := 0 }]
        "Ana" "Sam" "English" none =
      "Hello Ana! Great to see you! What would you like to learn about today?" := by
  have h := generateResponse_never_throws_hello_greeting
    [{ sender := Sender.user, content := "hello there", timestamp := 0 }]
    "Ana" "Sam" "English" none
    { sender := Sender.user, content := "hello there", timestamp := 0 }
    rfl rfl (by decide)
  rw [h.2.1, h.2.2]
  rfl

/-! ## Voice service (services/voiceService.ts) -/

/-- `speechToText`, with the filesystem modelled as the list of existing
file paths and the Whisper transcription call as an oracle.  The temp file
is written with `writeFileSync`; `fs.unlinkSync(tempFile)` sits on the
success path of the `try` only — the `catch` wraps and rethrows without
deleting. -/
def speechToText (isConfigured : Bool) (fs : List String) (tempFile : String)
    (transcription : Except Unit String) : Except String String × List String :=
  if !isConfigured then
    (Except.error "OpenAI API not configured", fs)
  else
    let fs1 := fs ++ [tempFile]
    match transcription with
    | Except.ok text => (Except.ok text, fs1.erase tempFile)
    | Except.error _ => (Except.error "Failed to convert speech to text", fs1)

/-! ### C7 -/

/-- C7 counterexample: when the transcription call throws, the call returns
an error but the temporary audio file still exists afterwards — it is not
deleted unconditionally. -/
theorem speechToText_leaves_temp_file_on_failure :
    (speechToText true [] "temp/audio_1.webm" (Except.error ())).1 =
      Except.error "Failed to convert speech to text"
    ∧ (speechToText true [] "temp/audio_1.webm" (Except.error ())).2 =
        ["temp/audio_1.webm"] := by
  exact ⟨rfl, rfl⟩

/-- C7 amended: the temp file is deleted before returning when the
transcription succeeds; when it fails, the call throws the wrapped error
and the temp file persists on the filesystem. -/
theorem speechToText_temp_file_scoped
    (fs : List String) (tempFile : String) (transcription : Except Unit String)
    (hnotin : tempFile ∉ fs) :
    (∀ text, transcription = Except.ok text →
       (speechToText true fs tempFile transcription).2 = fs)
    ∧ (transcription = Except.error () →
       (speechToText true fs tempFile transcription).2 = fs ++ [tempFile]
       ∧ tempFile ∈ (speechToText true fs tempFile transcription).2) := by
  constructor
  · intro text ht
    subst ht
    show (fs ++ [tempFile]).erase tempFile = fs
    rw [List.erase_append_right _ hnotin]
    simp
  · intro ht
    subst ht
    exact ⟨rfl, by simp [speechToText]⟩

/-- C7 witness for the amended claim: a successful transcription removes
the concrete temp file. -/
theorem speechToText_temp_file_scoped_witness :
    (speechToText true [] "temp/audio_2.webm" (Except.ok "hi there")).2 = [] :=
  (speechToText_temp_file_scoped [] "temp/audio_2.webm" (Except.ok "hi there")
    (by decide)).1 "hi there" rfl

/-! ## Avatar service (services/avatarService.ts) -/

/-- First variant of the private `generateAvatarVideo` (lines 113-146):
try D-ID first when its key is present, then HeyGen, then the demo video.
Each provider attempt is an oracle whose `Except.error` models a throw. -/
def generateAvatarVideoV1 (didKey heygenKey : Bool)
    (didAttempt heygenAttempt : Except Unit String) (tutorName : String) :
    String :=
  match (if didKey then didAttempt.toOption else none) with
  | some url => url
  | none =>
    match (if heygenKey then heygenAttempt.toOption else none) with
    | some url => url
    | none => (getDemoVideo tutorName).videoUrl

/-- Second variant of `generateDIDAvatar` (lines 610-687): its own catch
returns the demo video URL instead of rethrowing. -/
def generateDIDAvatarV2 (didAttempt : Except Unit String) (tutorName : String) :
    String :=
  match didAttempt with
  | Except.ok url => url
  | Except.error _ => (getDemoVideo tutorName).videoUrl

/-- Second variant of `generateAvatarVideo` (lines 580-608): HeyGen first,
then D-ID (which never rethrows), then the demo video. -/
def generateAvatarVideoV2 (didKey heygenKey : Bool)
    (didAttempt heygenAttempt : Except Unit String) (tutorName : String) :
    String :=
  match (if heygenKey then heygenAttempt.toOption else none) with
  | some url => url
  | none =>
    if didKey then generateDIDAvatarV2 didAttempt tutorName
    else (getDemoVideo tutorName).videoUrl

/-! ### C4 -/

/-- C4 counterexample: in the variant at avatarService.ts lines 113-146,
with both keys configured and both providers succeeding, the returned URL
is the D-ID result, not the HeyGen result — the cascade tries D-ID first,
refuting the claimed fixed order HeyGen-then-D-ID. -/
theorem generateAvatarVideo_order_counterexample :
    generateAvatarVideoV1 true true (Except.ok "https://did.example/v.mp4")
        (Except.ok "https://heygen.example/v.mp4") "john" =
      "https://did.example/v.mp4"
    ∧ "https://did.example/v.mp4" ≠ "https://heygen.example/v.mp4" :=
  ⟨rfl, by decide⟩

/-- C4 amended: the cascade order depends on the variant — D-ID, then
HeyGen, then demo at lines 113-146; HeyGen, then D-ID, then demo at lines
580-608.  In both, the first successful provider result is returned, a
thrown provider failure never propagates to the caller (both functions
return a plain value on every oracle outcome), and when every real
provider fails the demo video for the tutor name is returned. -/
theorem generateAvatarVideo_cascade
    (didAttempt heygenAttempt : Except Unit String) (tutorName : String) :
    (∀ url, didAttempt = Except.ok url →
       generateAvatarVideoV1 true true didAttempt heygenAttempt tutorName = url)
    ∧ (∀ url, didAttempt = Except.error () → heygenAttempt = Except.ok url →
       generateAvatarVideoV1 true true didAttempt heygenAttempt tutorName = url)
    ∧ (didAttempt = Except.error () → heygenAttempt = Except.error () →
       generateAvatarVideoV1 true true didAttempt heygenAttempt tutorName =
         (getDemoVideo tutorName).videoUrl)
    ∧ (∀ url, heygenAttempt = Except.ok url →
       generateAvatarVideoV2 true true didAttempt heygenAttempt tutorName = url)
    ∧ (∀ url, heygenAttempt = Except.error () → didAttempt = Except.ok url →
       generateAvatarVideoV2 true true didAttempt heygenAttempt tutorName = url)
    ∧ (heygenAttempt = Except.error () → didAttempt = Except.error () →
       generateAvatarVideoV2 true true didAttempt heygenAttempt tutorName =
         (getDemoVideo tutorName).videoUrl) := by
  refine ⟨?_, ?_, ?_, ?_, ?_, ?_⟩ <;> intros <;> subst_vars <;> rfl

/-- C4 witness: with D-ID throwing and HeyGen succeeding, the first variant
returns the HeyGen URL. -/
theorem generateAvatarVideo_cascade_witness :
    generateAvatarVideoV1 true true (Except.error ())
        (Except.ok "https://heygen.example/v.mp4") "sarah" =
      "https://heygen.example/v.mp4" :=
  (generateAvatarVideo_cascade (Except.error ())
      (Except.ok "https://heygen.example/v.mp4") "sarah").2.1
    "https://heygen.example/v.mp4" rfl rfl

/-! ## Polling loops (avatarService.ts `pollHeyGenVideoStatus`, lines
331-403, and the D-ID poll loop inside the first `generateDIDAvatar`,
lines 199-250) -/

/-- One HeyGen status-poll response: either an HTTP response body
(`code`, `data.status`, `data.video_url`) or a network error with an
optional HTTP status. -/
inductive HGPollResult
| resp (code : Nat) (status : Option String) (videoUrl : Option String)
| netErr (httpStatus : Option Nat)
deriving DecidableEq, Repr

inductive PollStep
| success (url : String)
| abort (msg : String)
| next
deriving DecidableEq, Repr

/-- The body of one `pollHeyGenVideoStatus` iteration.  Every `throw`
inside the `try` (status `failed`, `completed` without URL, non-100 code)
is caught by the loop's own `catch`, which re-raises only for an HTTP 404
polling error; every other outcome increments `attempts` and continues. -/
def hgStep : HGPollResult → PollStep
  | HGPollResult.resp code status url =>
      if code = 100 then
        match status with
        | some "completed" =>
            match url with
            | some u => PollStep.success u
            | none => PollStep.next
        | _ => PollStep.next
      else PollStep.next
  | HGPollResult.netErr httpStatus =>
      if httpStatus = some 404 then PollStep.abort "Video ID not found or invalid"
      else PollStep.next

/-- The `while (attempts < maxAttempts)` loop, with `fuel = maxAttempts -
attempts`; running out of fuel is the `throw new Error('Video generation
timed out')` after the loop. -/
def hgLoop (oracle : Nat → HGPollResult) (attempts fuel : Nat) :
    Except String String :=
  match fuel with
  | 0 => Except.error "Video generation timed out"
  | fuel + 1 =>
      match hgStep (oracle attempts) with
      | PollStep.success u => Except.ok u
      | PollStep.abort e => Except.error e
      | PollStep.next => hgLoop oracle (attempts + 1) fuel

def heygenMaxAttempts : Nat := 60

def pollHeyGenVideoStatus (oracle : Nat → HGPollResult) : Except String String :=
  hgLoop oracle 0 heygenMaxAttempts

/-- One D-ID status-poll response: the body (`status`, `result_url`) or a
network error (caught by the inner catch, which continues polling). -/
inductive DIDPollResult
| resp (status : String) (resultUrl : Option String)
| netErr
deriving DecidableEq, Repr

/-- The D-ID poll loop (first variant): `status === 'done'` breaks out with
`videoUrl := result_url` and the code after the loop returns it only when
truthy; a thrown `'error'`-status failure is caught by the inner catch and
polling continues, as does any network error or non-terminal status. -/
def didLoop (oracle : Nat → DIDPollResult) (attempts fuel : Nat) :
    Except String String :=
  match fuel with
  | 0 => Except.error "Video generation timed out"
  | fuel + 1 =>
      match oracle attempts with
      | DIDPollResult.resp status url =>
          if status = "done" then
            if (url.getD "") ≠ "" then Except.ok (url.getD "")
            else Except.error "Video generation timed out"
          else didLoop oracle (attempts + 1) fuel
      | DIDPollResult.netErr => didLoop oracle (attempts + 1) fuel

def didMaxAttempts : Nat := 30

def pollDIDVideoStatus (oracle : Nat → DIDPollResult) : Except String String :=
  didLoop oracle 0 didMaxAttempts

/-- Whether a D-ID poll response reports the terminal success status. -/
def didIsDone : DIDPollResult → Bool
  | DIDPollResult.resp status _ => status == "done"
  | DIDPollResult.netErr => false

lemma hgLoop_next (oracle : Nat → HGPollResult) (attempts fuel : Nat)
    (h : hgStep (oracle attempts) = PollStep.next) :
    hgLoop oracle attempts (fuel + 1) = hgLoop oracle (attempts + 1) fuel := by
  simp only [hgLoop, h]

lemma hgLoop_success (oracle : Nat → HGPollResult) (attempts fuel : Nat)
    (u : String) (h : hgStep (oracle attempts) = PollStep.success u) :
    hgLoop oracle attempts (fuel + 1) = Except.ok u := by
  simp only [hgLoop, h]

lemma hgLoop_timeout (oracle : Nat → HGPollResult) :
    ∀ (fuel attempts : Nat),
      (∀ i, attempts ≤ i → i < attempts + fuel → hgStep (oracle i) = PollStep.next) →
      hgLoop oracle attempts fuel = Except.error "Video generation timed out" := by
  intro fuel
  induction fuel with
  | zero => intro attempts _; rfl
  | succ n ih =>
      intro attempts h
      have h0 : hgStep (oracle attempts) = PollStep.next :=
        h attempts (Nat.le_refl _) (by omega)
      rw [hgLoop_next oracle attempts n h0]
      exact ih (attempts + 1) (fun i h1 h2 => h i (by omega) (by omega))

lemma didLoop_done (oracle : Nat → DIDPollResult) (attempts fuel : Nat)
    (u : String) (h : oracle attempts = DIDPollResult.resp "done" (some u))
    (hu : u ≠ "") :
    didLoop oracle attempts (fuel + 1) = Except.ok u := by
  simp only [didLoop, h, if_pos rfl]
  have hc : ((some u).getD "") ≠ "" := hu
  rw [if_pos hc, if_pos trivial]
  rfl

lemma didLoop_timeout (oracle : Nat → DIDPollResult) :
    ∀ (fuel attempts : Nat),
      (∀ i, attempts ≤ i → i < attempts + fuel → didIsDone (oracle i) = false) →
      didLoop oracle attempts fuel = Except.error "Video generation timed out" := by
  intro fuel
  induction fuel with
  | zero => intro attempts _; rfl
  | succ n ih =>
      intro attempts h
      have h0 : didIsDone (oracle attempts) = false :=
        h attempts (Nat.le_refl _) (by omega)
      have hrec : didLoop oracle attempts (n + 1) = didLoop oracle (attempts + 1) n := by
        cases hoi : oracle attempts with
        | resp status url =>
            rw [hoi] at h0
            simp only [didIsDone, beq_eq_false_iff_ne, ne_eq] at h0
            simp only [didLoop, hoi, if_neg h0]
        | netErr => simp only [didLoop, hoi]
      rw [hrec]
      exact ih (attempts + 1) (fun i h1 h2 => h i (by omega) (by omega))

/-! ### C5 -/

/-- C5 counterexample: a terminal failure status does not make either poll
loop raise — the failure-throw is caught by the loop's own catch and
polling continues, so a `failed` (HeyGen) or `error` (D-ID) status at
attempt 0 followed by success at attempt 1 yields the video URL, not an
error. -/
theorem poll_terminal_failure_counterexample :
    pollHeyGenVideoStatus (fun i =>
        if i = 0 then HGPollResult.resp 100 (some "failed") none
        else HGPollResult.resp 100 (some "completed") (some "https://hg.example/v.mp4")) =
      Except.ok "https://hg.example/v.mp4"
    ∧ pollDIDVideoStatus (fun i =>
        if i = 0 then DIDPollResult.resp "error" none
        else DIDPollResult.resp "done" (some "https://did.example/v.mp4")) =
      Except.ok "https://did.example/v.mp4" :=
  ⟨rfl, rfl⟩

/-- C5 amended: when the provider never reports the terminal success shape
(and, for HeyGen, no 404 poll error occurs), the loops stop after their
fixed maximum attempt counts — 60 for `pollHeyGenVideoStatus`, 30 for the
D-ID loop — and raise the timeout error rather than polling forever; a
terminal success returns the video URL.  A terminal failure status does
not abort the loop: it is caught by the loop's own catch and polling
continues (see the counterexample), so persistent failure also ends in the
timeout error. -/
theorem poll_loops_bounded
    (hgOracle : Nat → HGPollResult) (didOracle : Nat → DIDPollResult) :
    ((∀ i, i < heygenMaxAttempts → hgStep (hgOracle i) = PollStep.next) →
       pollHeyGenVideoStatus hgOracle = Except.error "Video generation timed out")
    ∧ (∀ u, hgStep (hgOracle 0) = PollStep.success u →
        pollHeyGenVideoStatus hgOracle = Except.ok u)
    ∧ (∀ u, hgOracle 0 = HGPollResult.resp 100 (some "failed") none →
        hgOracle 1 = HGPollResult.resp 100 (some "completed") (some u) →
        pollHeyGenVideoStatus hgOracle = Except.ok u)
    ∧ ((∀ i, i < didMaxAttempts → didIsDone (didOracle i) = false) →
        pollDIDVideoStatus didOracle = Except.error "Video generation timed out")
    ∧ (∀ u, didOracle 0 = DIDPollResult.resp "done" (some u) → u ≠ "" →
        pollDIDVideoStatus didOracle = Except.ok u) := by
  refine ⟨?_, ?_, ?_, ?_, ?_⟩
  · intro h
    exact hgLoop_timeout hgOracle heygenMaxAttempts 0 (fun i _ h2 => h i (by omega))
  · intro u h
    show hgLoop hgOracle 0 (59 + 1) = Except.ok u
    exact hgLoop_success hgOracle 0 59 u h
  · intro u h0 h1
    have s0 : hgStep (hgOracle 0) = PollStep.next := by rw [h0]; rfl
    have s1 : hgStep (hgOracle 1) = PollStep.success u := by rw [h1]; rfl
    show hgLoop hgOracle 0 (59 + 1) = Except.ok u
    rw [hgLoop_next hgOracle 0 59 s0]
    show hgLoop hgOracle 1 (58 + 1) = Except.ok u
    exact hgLoop_success hgOracle 1 58 u s1
  · intro h
    exact didLoop_timeout didOracle didMaxAttempts 0 (fun i _ h2 => h i (by omega))
  · intro u h hu
    show didLoop didOracle 0 (29 + 1) = Except.ok u
    exact didLoop_done didOracle 0 29 u h hu

/-- C5 witness: a provider stuck in `processing` forever makes the HeyGen
poll raise the timeout error. -/
theorem poll_loops_bounded_witness :
    pollHeyGenVideoStatus (fun _ => HGPollResult.resp 100 (some "processing") none) =
      Except.error "Video generation timed out" :=
  (poll_loops_bounded (fun _ => HGPollResult.resp 100 (some "processing") none)
      (fun _ => DIDPollResult.netErr)).1
    (fun i _ => rfl)

end AITutor
